import Mathlib

/-!
Shallow embedding of `gym_solo/envs/solo8v2vanilla.py` (WPI-MMR/solo-gym).

The environment class `Solo8VanillaEnv` wires a pybullet client, an
observation/reward/termination factory triple and a configuration record
into the standard gym step/reset loop.  The pybullet client is modelled as
an explicit state (`ClientState`) holding the loaded bodies, a simulation
step counter and an append-only log of the backend calls the environment
issues; the numeric type `Rat` stands in for Python floats (the code only
passes numeric values through to the backend, no float rounding is
exercised).  Python exceptions are modelled with `Except`, the error value
carrying the client state at the raise point.
-/

/-- Modelled from the spec: `gym_solo.core.configs.Solo8BaseConfig` is not in
the sources; per spec section 3 it is an immutable value object with gravity
vector, fixed timestep, model asset path, initial position, initial Euler
orientation, per-joint torque limit, linear/angular damping, restitution and
lateral friction, never mutated by the environment. -/
structure Config where
  gravity : Rat × Rat × Rat
  dt : Rat
  urdf : String
  robot_start_pos : Rat × Rat × Rat
  robot_start_orientation_euler : Rat × Rat × Rat
  motor_torque_limit : Rat
  linear_damping : Rat
  angular_damping : Rat
  restitution : Rat
  lateral_friction : Rat
deriving DecidableEq

/-- The two pybullet control modes the environment uses
(`p.VELOCITY_CONTROL` in `_load_robot`, `p.TORQUE_CONTROL` in `step` and
`reset`). -/
inductive ControlMode where
  | velocityControl
  | torqueControl
deriving DecidableEq

/-- One backend call issued by the environment, as recorded in the client
log.  The log order is the call order. -/
inductive Event where
  | connect (useGui : Bool)
  | setAdditionalSearchPath
  | setGravity (gx gy gz : Rat)
  | setPhysicsEngineParameter (fixedTimeStep : Rat) (numSubSteps : Nat)
  | loadPlane (bodyId : Nat)
  | loadRobot (bodyId : Nat) (urdf : String) (pos euler : Rat × Rat × Rat)
  | motorCmd (bodyId : Nat) (joints : List Nat) (mode : ControlMode)
      (forces : List Rat) (positionGains velocityGains : Option (List Rat))
  | stepSim
  | removeBody (bodyId : Nat)
  | changeDynamics (bodyId joint : Nat)
      (linearDamping angularDamping restitution lateralFriction : Rat)
  | sleep (dt : Rat)
deriving DecidableEq

/-- Errors raised by the modelled backend, plus the Python `AttributeError`
raised when the constructor dereferences a `None` config. -/
inductive PbError where
  | noneTypeHasNoAttribute
  | invalidBody
  | invalidJointIndex
  | argumentLengthMismatch
deriving DecidableEq

/-- The modelled pybullet client state.  `futureCounts`/`defaultCount`
parameterize the opaque backend: successive robot-URDF loads report the
joint counts of `futureCounts` (then `defaultCount` once exhausted); a
backend that is deterministic for a fixed asset is the instance
`futureCounts = []`. -/
structure ClientState where
  nextBodyId : Nat := 0
  bodies : List (Nat × Nat) := []
  stepCount : Nat := 0
  futureCounts : List Nat := []
  defaultCount : Nat := 8
  log : List Event := []
deriving DecidableEq

/-- Joint count of a loaded body, `none` when the body id is not loaded. -/
def jointCount : List (Nat × Nat) → Nat → Option Nat
  | [], _ => none
  | (b, c) :: rest, body => if body = b then some c else jointCount rest body

/-- Drop the entry of a removed body. -/
def removeEntry : List (Nat × Nat) → Nat → List (Nat × Nat)
  | [], _ => []
  | (b, c) :: rest, body => if body = b then rest else (b, c) :: removeEntry rest body

/-- Append one backend call to the client log. -/
def ClientState.record (s : ClientState) (e : Event) : ClientState :=
  { s with log := s.log ++ [e] }

/-- `client.setGravity(*gravity)`. -/
def ClientState.setGravity (s : ClientState) (g : Rat × Rat × Rat) : ClientState :=
  s.record (.setGravity g.1 g.2.1 g.2.2)

/-- `client.setPhysicsEngineParameter(fixedTimeStep=dt, numSubSteps=n)`. -/
def ClientState.setPhysicsEngineParameter (s : ClientState) (dt : Rat) (n : Nat) :
    ClientState :=
  s.record (.setPhysicsEngineParameter dt n)

/-- `client.loadURDF('plane.urdf')`: the ground plane, a body with no
controllable joints. -/
def ClientState.loadPlane (s : ClientState) : Nat × ClientState :=
  (s.nextBodyId,
   { s with nextBodyId := s.nextBodyId + 1,
            bodies := (s.nextBodyId, 0) :: s.bodies,
            log := s.log ++ [.loadPlane s.nextBodyId] })

/-- `client.loadURDF(config.urdf, pos, quaternionFromEuler(euler), ...)`:
loads a robot body whose joint count is what the backend reports for this
load (head of `futureCounts`, or `defaultCount`). -/
def ClientState.loadURDFRobot (s : ClientState) (urdf : String)
    (pos euler : Rat × Rat × Rat) : Nat × ClientState :=
  (s.nextBodyId,
   { s with nextBodyId := s.nextBodyId + 1,
            bodies := (s.nextBodyId, s.futureCounts.headD s.defaultCount) :: s.bodies,
            futureCounts := s.futureCounts.tail,
            log := s.log ++ [.loadRobot s.nextBodyId urdf pos euler] })

/-- `client.getNumJoints(body)`. -/
def ClientState.getNumJoints (s : ClientState) (body : Nat) : Nat :=
  (jointCount s.bodies body).getD 0

/-- Length check pybullet applies to each optional gains argument of
`setJointMotorControlArray`: when supplied, it must match the joint-index
list length. -/
def gainsLenOk : Option (List Rat) → Nat → Bool
  | none, _ => true
  | some g, n => decide (g.length = n)

/-- `client.setJointMotorControlArray(body, jointIndices, mode, forces=...,
positionGains=..., velocityGains=...)`.  Per pybullet's documented
behaviour it raises when the forces (or a supplied gains) list length does
not match the joint-index list, when the body is unknown, or when a joint
index is out of range; otherwise the command is recorded. -/
def ClientState.setJointMotorControlArray (s : ClientState) (body : Nat)
    (jointIndices : List Nat) (mode : ControlMode) (forces : List Rat)
    (positionGains velocityGains : Option (List Rat)) :
    Except (PbError × ClientState) ClientState :=
  match jointCount s.bodies body with
  | none => .error (.invalidBody, s)
  | some cnt =>
    if forces.length = jointIndices.length then
      if gainsLenOk positionGains jointIndices.length then
        if gainsLenOk velocityGains jointIndices.length then
          if jointIndices.all (fun j => decide (j < cnt)) then
            .ok (s.record (.motorCmd body jointIndices mode forces
                  positionGains velocityGains))
          else .error (.invalidJointIndex, s)
        else .error (.argumentLengthMismatch, s)
      else .error (.argumentLengthMismatch, s)
    else .error (.argumentLengthMismatch, s)

/-- `client.stepSimulation()`: advances the simulation by one fixed
timestep. -/
def ClientState.stepSimulation (s : ClientState) : ClientState :=
  { s with stepCount := s.stepCount + 1, log := s.log ++ [.stepSim] }

/-- `client.removeBody(body)`: raises on an unknown body. -/
def ClientState.removeBody (s : ClientState) (body : Nat) :
    Except (PbError × ClientState) ClientState :=
  match jointCount s.bodies body with
  | none => .error (.invalidBody, s)
  | some _ =>
    .ok { s with bodies := removeEntry s.bodies body,
                 log := s.log ++ [.removeBody body] }

/-- `client.changeDynamics(body, joint, linearDamping=..., angularDamping=...,
restitution=..., lateralFriction=...)`. -/
def ClientState.changeDynamics (s : ClientState) (body joint : Nat)
    (lin ang rest fric : Rat) : ClientState :=
  s.record (.changeDynamics body joint lin ang rest fric)

/-- Shape descriptor returned by the observation factory's
`get_observation_space`. -/
structure ObsSpace where
  dim : Nat
deriving DecidableEq

/-- Modelled from the spec: `gym_solo.core.obs.ObservationFactory` is not in
the sources; per spec section 4.3 it exposes `get_obs`, returning an
observation vector with parallel labels derived from the current physics
state, and `get_observation_space`, returning a shape descriptor.  Both are
arbitrary functions of the physics state. -/
structure ObservationFactory where
  get_obs : ClientState → List Rat × List String
  get_observation_space : ClientState → ObsSpace

/-- Modelled from the spec: `gym_solo.core.rewards.RewardFactory` is not in
the sources; per spec section 4.3 it exposes `get_reward`, a scalar computed
from the current physics state. -/
structure RewardFactory where
  get_reward : ClientState → Rat

/-- Modelled from the spec: `gym_solo.core.termination.TerminationFactory`
is not in the sources; per spec section 4.3 it exposes `is_terminated`, a
boolean computed from the current physics state. -/
structure TerminationFactory where
  is_terminated : ClientState → Bool

/-- `gym.spaces.Box(low, high, shape=(dim,))` with scalar bounds: the
scalar `low`/`high` broadcast to every coordinate. -/
structure Box where
  low : Rat
  high : Rat
  dim : Nat
deriving DecidableEq

/-- Per-coordinate lower bound of a scalar-bounds box (broadcast). -/
def Box.lowerBound (b : Box) (_i : Nat) : Rat := b.low

/-- Per-coordinate upper bound of a scalar-bounds box (broadcast). -/
def Box.upperBound (b : Box) (_i : Nat) : Rat := b.high

/-- The fields of the Python class `Solo8VanillaEnv` (the client state is
threaded separately). -/
structure Solo8VanillaEnv where
  realtime : Bool
  config : Config
  plane : Nat
  robot : Nat
  zero_gains : List Rat
  action_space : Box
  obs_factory : ObservationFactory
  reward_factory : RewardFactory
  termination_factory : TerminationFactory

/-- `Solo8VanillaEnv._load_robot`: `changeDynamics` loop over
`range(joint_cnt)` applying the four config coefficients to every joint. -/
def applyJointDynamics (cfg : Config) (robot_id : Nat) :
    List Nat → ClientState → ClientState
  | [], s => s
  | j :: rest, s =>
    applyJointDynamics cfg robot_id rest
      (s.changeDynamics robot_id j cfg.linear_damping cfg.angular_damping
        cfg.restitution cfg.lateral_friction)

/-- `Solo8VanillaEnv._load_robot`: loads the robot URDF at the configured
start pose, reads its joint count, puts every joint under zero-force
velocity control, then applies the dynamics overrides to every joint;
returns the body id and the joint count. -/
def Solo8VanillaEnv.load_robot (cfg : Config) (s : ClientState) :
    Except (PbError × ClientState) (Nat × Nat × ClientState) :=
  let pr := s.loadURDFRobot cfg.urdf cfg.robot_start_pos
    cfg.robot_start_orientation_euler
  let robot_id := pr.1
  let s1 := pr.2
  let joint_cnt := s1.getNumJoints robot_id
  match s1.setJointMotorControlArray robot_id (List.range joint_cnt)
      .velocityControl (List.replicate joint_cnt 0) none none with
  | .error e => .error e
  | .ok s2 =>
    .ok (robot_id, joint_cnt, applyJointDynamics cfg robot_id (List.range joint_cnt) s2)

/-- The settle loop of `Solo8VanillaEnv.reset`: `for i in range(n)` issue a
torque command over `arange(action_space.shape[0])` with
`forces = _zero_gains` and zero position/velocity gains, then advance the
simulation, for `robot = self.robot`. -/
def resetSettleLoop (robot d : Nat) (zg : List Rat) :
    Nat → ClientState → Except (PbError × ClientState) ClientState
  | 0, s => .ok s
  | Nat.succ n, s =>
    match s.setJointMotorControlArray robot (List.range d) .torqueControl
        zg (some zg) (some zg) with
    | .error e => .error e
    | .ok s1 => resetSettleLoop robot d zg n s1.stepSimulation

/-- The two shapes `Solo8VanillaEnv.reset` returns: a pair of an empty
vector and an empty label list on the construction-time call, otherwise the
observation vector alone. -/
inductive ResetResult where
  | initResult (v : List Rat) (labels : List String)
  | obsResult (v : List Rat)
deriving DecidableEq

/-- `Solo8VanillaEnv.reset`: removes the current robot body, reloads a
fresh one via `_load_robot` (its reported joint count is discarded), runs
the 1000-iteration settle loop, then returns `(np.empty(shape=(0,)), [])`
on `init_call` and otherwise the observation vector from `get_obs`. -/
def Solo8VanillaEnv.reset (env : Solo8VanillaEnv) (init_call : Bool)
    (s : ClientState) :
    Except (PbError × ClientState) (ResetResult × Solo8VanillaEnv × ClientState) :=
  match s.removeBody env.robot with
  | .error e => .error e
  | .ok s0 =>
    match Solo8VanillaEnv.load_robot env.config s0 with
    | .error e => .error e
    | .ok (robot_id, _, s1) =>
      let env1 := { env with robot := robot_id }
      match resetSettleLoop env1.robot env1.action_space.dim env1.zero_gains
          1000 s1 with
      | .error e => .error e
      | .ok s2 =>
        if init_call then .ok (.initResult [] [], env1, s2)
        else .ok (.obsResult (env1.obs_factory.get_obs s2).1, env1, s2)

/-- The 4-tuple `Solo8VanillaEnv.step` returns; the info dict is the
association list `{'labels': obs_labels}`. -/
structure StepResult where
  obs_values : List Rat
  reward : Rat
  done : Bool
  info : List (String × List String)
deriving DecidableEq

/-- `Solo8VanillaEnv.step`: commands pure torque control with the action as
forces over `arange(action_space.shape[0])` with zero gains, advances the
simulation once, optionally sleeps one timestep in realtime mode, then
reads the three factories and assembles the 4-tuple. -/
def Solo8VanillaEnv.step (env : Solo8VanillaEnv) (action : List Rat)
    (s : ClientState) :
    Except (PbError × ClientState) (StepResult × ClientState) :=
  match s.setJointMotorControlArray env.robot
      (List.range env.action_space.dim) .torqueControl action
      (some env.zero_gains) (some env.zero_gains) with
  | .error e => .error e
  | .ok s1 =>
    let s2 := s1.stepSimulation
    let s3 := if env.realtime then s2.record (.sleep env.config.dt) else s2
    let ob := env.obs_factory.get_obs s3
    let reward := env.reward_factory.get_reward s3
    let done := env.termination_factory.is_terminated s3
    .ok ({ obs_values := ob.1, reward := reward, done := done,
           info := [("labels", ob.2)] }, s3)

/-- The `observation_space` property: a direct delegation to
`obs_factory.get_observation_space()`, nothing cached by the environment. -/
def Solo8VanillaEnv.observation_space (env : Solo8VanillaEnv)
    (s : ClientState) : ObsSpace :=
  env.obs_factory.get_observation_space s

/-- `Solo8VanillaEnv.__init__`: stores realtime and the (possibly `None`)
config, connects the client, sets the asset search path, then dereferences
the config for gravity — raising `AttributeError` when it is `None` —
applies gravity and the fixed timestep, loads the plane, loads the robot,
builds the factories, derives `_zero_gains` and the symmetric torque box
from the reported joint count, and finishes with `reset(init_call=True)`.
`backendCounts`/`backendDefault` parameterize the opaque backend's
per-load joint counts. -/
def Solo8VanillaEnv.init (use_gui realtime : Bool) (config : Option Config)
    (of : ObservationFactory) (rf : RewardFactory) (tf : TerminationFactory)
    (backendCounts : List Nat) (backendDefault : Nat) :
    Except (PbError × ClientState) (Solo8VanillaEnv × ClientState) :=
  let s0 : ClientState :=
    { futureCounts := backendCounts, defaultCount := backendDefault,
      log := [.connect use_gui, .setAdditionalSearchPath] }
  match config with
  | none => .error (.noneTypeHasNoAttribute, s0)
  | some cfg =>
    let s1 := s0.setGravity cfg.gravity
    let s2 := s1.setPhysicsEngineParameter cfg.dt 1
    let pl := s2.loadPlane
    match Solo8VanillaEnv.load_robot cfg pl.2 with
    | .error e => .error e
    | .ok (robot_id, joint_cnt, s4) =>
      let env : Solo8VanillaEnv :=
        { realtime := realtime, config := cfg, plane := pl.1, robot := robot_id,
          zero_gains := List.replicate joint_cnt 0,
          action_space :=
            { low := -cfg.motor_torque_limit, high := cfg.motor_torque_limit,
              dim := joint_cnt },
          obs_factory := of, reward_factory := rf, termination_factory := tf }
      match Solo8VanillaEnv.reset env true s4 with
      | .error e => .error e
      | .ok (_, env1, s5) => .ok (env1, s5)

/-! ### Backend-primitive lemmas -/

/-- A freshly prepended body is found with its joint count. -/
theorem jointCount_cons_self (l : List (Nat × Nat)) (b c : Nat) :
    jointCount ((b, c) :: l) b = some c := by
  simp [jointCount]

/-- A well-formed `setJointMotorControlArray` call succeeds and only
appends the command to the log. -/
theorem setJointMotorControlArray_ok (s : ClientState) (body : Nat)
    (idx : List Nat) (mode : ControlMode) (forces : List Rat)
    (pg vg : Option (List Rat)) (cnt : Nat)
    (hbody : jointCount s.bodies body = some cnt)
    (hf : forces.length = idx.length)
    (hpg : gainsLenOk pg idx.length = true)
    (hvg : gainsLenOk vg idx.length = true)
    (hidx : ∀ j ∈ idx, j < cnt) :
    s.setJointMotorControlArray body idx mode forces pg vg =
      .ok (s.record (.motorCmd body idx mode forces pg vg)) := by
  unfold ClientState.setJointMotorControlArray
  rw [hbody]
  simp only [hf, hpg, hvg, if_true]
  rw [if_pos]
  simp only [List.all_eq_true, decide_eq_true_eq]
  exact hidx

/-- A torque command over `range d` with `d` joints' worth of forces and
gains succeeds on a robot with at least `d` joints. -/
theorem motorCmd_range_ok (s : ClientState) (body d : Nat)
    (mode : ControlMode) (forces zg : List Rat) (cnt : Nat)
    (hbody : jointCount s.bodies body = some cnt)
    (hd : d ≤ cnt) (hf : forces.length = d) (hzg : zg.length = d) :
    s.setJointMotorControlArray body (List.range d) mode forces
        (some zg) (some zg) =
      .ok (s.record (.motorCmd body (List.range d) mode forces
            (some zg) (some zg))) := by
  apply setJointMotorControlArray_ok s body (List.range d) mode forces
    (some zg) (some zg) cnt hbody
  · simpa using hf
  · simp [gainsLenOk, hzg]
  · simp [gainsLenOk, hzg]
  · intro j hj
    have hj' : j < d := List.mem_range.mp hj
    omega

/-- The `changeDynamics` loop only appends the per-joint dynamics events. -/
theorem applyJointDynamics_spec (cfg : Config) (r : Nat) (js : List Nat) :
    ∀ s : ClientState,
      applyJointDynamics cfg r js s =
        { s with log := s.log ++ js.map (fun j =>
            .changeDynamics r j cfg.linear_damping cfg.angular_damping
              cfg.restitution cfg.lateral_friction) } := by
  induction js with
  | nil => intro s; simp [applyJointDynamics]
  | cons j rest ih =>
    intro s
    simp [applyJointDynamics, ClientState.changeDynamics, ClientState.record, ih]

/-! ### `_load_robot` -/

/-- The backend-call sequence `_load_robot` emits: load the URDF at the
configured pose, put all `c` joints under zero-force velocity control,
then apply the configured dynamics coefficients to each joint in order. -/
def loadTrace (cfg : Config) (id c : Nat) : List Event :=
  .loadRobot id cfg.urdf cfg.robot_start_pos cfg.robot_start_orientation_euler ::
  .motorCmd id (List.range c) .velocityControl (List.replicate c 0) none none ::
  (List.range c).map (fun j =>
    .changeDynamics id j cfg.linear_damping cfg.angular_damping
      cfg.restitution cfg.lateral_friction)

/-- `_load_robot` always succeeds, returns the fresh body id and the joint
count the backend reports for this load, registers the body, consumes one
backend load, and appends exactly `loadTrace`. -/
theorem load_robot_spec (cfg : Config) (s : ClientState) :
    Solo8VanillaEnv.load_robot cfg s =
      .ok (s.nextBodyId, s.futureCounts.headD s.defaultCount,
        { s with nextBodyId := s.nextBodyId + 1,
                 bodies := (s.nextBodyId, s.futureCounts.headD s.defaultCount)
                   :: s.bodies,
                 futureCounts := s.futureCounts.tail,
                 log := s.log ++
                   loadTrace cfg s.nextBodyId (s.futureCounts.headD s.defaultCount) }) := by
  unfold Solo8VanillaEnv.load_robot
  simp only [ClientState.loadURDFRobot, ClientState.getNumJoints,
    jointCount_cons_self, Option.getD_some]
  rw [setJointMotorControlArray_ok _ _ _ _ _ _ _
    (s.futureCounts.headD s.defaultCount) (by simp [jointCount_cons_self])
    (by simp) (by simp [gainsLenOk]) (by simp [gainsLenOk])
    (fun j hj => List.mem_range.mp hj)]
  simp [applyJointDynamics_spec, ClientState.record, loadTrace]

/-! ### The settle loop -/

/-- The backend-call sequence of `n` settle iterations: a zero-torque,
zero-gain command over `range d` followed by one simulation step, `n`
times. -/
def settleTrace (robot d : Nat) (zg : List Rat) : Nat → List Event
  | 0 => []
  | Nat.succ n =>
    .motorCmd robot (List.range d) .torqueControl zg (some zg) (some zg) ::
    .stepSim :: settleTrace robot d zg n

/-- On a robot with at least `d` joints the settle loop succeeds, advances
the simulation by exactly `n` ticks, and appends exactly `settleTrace n`;
nothing else in the client state changes. -/
theorem resetSettleLoop_spec (robot d : Nat) (zg : List Rat)
    (hzg : zg.length = d) (n : Nat) :
    ∀ (s : ClientState) (cnt : Nat),
      jointCount s.bodies robot = some cnt → d ≤ cnt →
      resetSettleLoop robot d zg n s =
        .ok { s with stepCount := s.stepCount + n,
                     log := s.log ++ settleTrace robot d zg n } := by
  induction n with
  | zero =>
    intro s cnt h1 h2
    simp [resetSettleLoop, settleTrace]
  | succ n ih =>
    intro s cnt h1 h2
    rw [resetSettleLoop,
      motorCmd_range_ok s robot d .torqueControl zg zg cnt h1 h2 hzg hzg]
    have hbodies : jointCount ((s.record (.motorCmd robot (List.range d)
        .torqueControl zg (some zg) (some zg))).stepSimulation).bodies robot
        = some cnt := h1
    show resetSettleLoop robot d zg n _ = _
    rw [ih _ cnt hbodies h2]
    simp [ClientState.record, ClientState.stepSimulation, settleTrace]
    omega

/-! ### `reset` -/

/-- The joint count the backend will report for the next robot load. -/
def resetFreshCount (s : ClientState) : Nat := s.futureCounts.headD s.defaultCount

/-- The client state `reset` leaves behind on success: the old robot body
replaced by the fresh one, exactly 1000 more simulation ticks, one backend
load consumed, and the remove/load/settle call sequence appended to the
log. -/
def resetFinalState (env : Solo8VanillaEnv) (s : ClientState) : ClientState :=
  { nextBodyId := s.nextBodyId + 1,
    bodies := (s.nextBodyId, resetFreshCount s) :: removeEntry s.bodies env.robot,
    stepCount := s.stepCount + 1000,
    futureCounts := s.futureCounts.tail,
    defaultCount := s.defaultCount,
    log := s.log ++ Event.removeBody env.robot ::
      (loadTrace env.config s.nextBodyId (resetFreshCount s) ++
       settleTrace s.nextBodyId env.action_space.dim env.zero_gains 1000) }

/-- Full description of a successful `reset`: the robot is removed and a
fresh one loaded (`resetFinalState` spells out the 1000-tick settle pass
and the call order), the environment keeps every field except `robot`, and
the returned value is the empty pair on `init_call` and otherwise the
observation computed from the post-settle state. -/
theorem reset_spec (env : Solo8VanillaEnv) (init_call : Bool) (s : ClientState)
    (cnt0 : Nat)
    (h1 : jointCount s.bodies env.robot = some cnt0)
    (hzg : env.zero_gains.length = env.action_space.dim)
    (hd : env.action_space.dim ≤ resetFreshCount s) :
    Solo8VanillaEnv.reset env init_call s =
      .ok ((if init_call then .initResult [] []
            else .obsResult (env.obs_factory.get_obs (resetFinalState env s)).1),
           { env with robot := s.nextBodyId }, resetFinalState env s) := by
  have hload := load_robot_spec env.config
    { s with bodies := removeEntry s.bodies env.robot,
             log := s.log ++ [.removeBody env.robot] }
  unfold Solo8VanillaEnv.reset ClientState.removeBody
  rw [h1]
  simp only [hload]
  rw [resetSettleLoop_spec s.nextBodyId env.action_space.dim env.zero_gains hzg
    1000 _ (resetFreshCount s) (by simp [jointCount_cons_self, resetFreshCount]) hd]
  cases init_call <;>
    simp [resetFinalState, resetFreshCount, List.append_assoc]

/-! ### `step` -/

/-- The client state a successful `step` leaves behind: the torque command
with the action as forces, one simulation tick, and (in realtime mode) one
sleep appended. -/
def stepFinalState (env : Solo8VanillaEnv) (action : List Rat)
    (s : ClientState) : ClientState :=
  { s with stepCount := s.stepCount + 1,
           log := s.log ++
             .motorCmd env.robot (List.range env.action_space.dim)
               .torqueControl action (some env.zero_gains) (some env.zero_gains) ::
             .stepSim ::
             (if env.realtime then [.sleep env.config.dt] else []) }

/-- Full description of a successful `step`: with an action of the
declared length on a robot with enough joints, the action is forwarded
verbatim as the torque command, the simulation advances exactly once, and
all three factories are evaluated on the resulting post-step state. -/
theorem step_spec (env : Solo8VanillaEnv) (action : List Rat) (s : ClientState)
    (cnt : Nat)
    (hbody : jointCount s.bodies env.robot = some cnt)
    (hd : env.action_space.dim ≤ cnt)
    (hlen : action.length = env.action_space.dim)
    (hzg : env.zero_gains.length = env.action_space.dim) :
    Solo8VanillaEnv.step env action s =
      .ok ({ obs_values := (env.obs_factory.get_obs (stepFinalState env action s)).1,
             reward := env.reward_factory.get_reward (stepFinalState env action s),
             done := env.termination_factory.is_terminated (stepFinalState env action s),
             info := [("labels",
               (env.obs_factory.get_obs (stepFinalState env action s)).2)] },
           stepFinalState env action s) := by
  unfold Solo8VanillaEnv.step
  rw [motorCmd_range_ok s env.robot env.action_space.dim .torqueControl action
    env.zero_gains cnt hbody hd hlen hzg]
  cases hr : env.realtime <;>
    simp [stepFinalState, ClientState.record, ClientState.stepSimulation, hr,
      List.append_assoc]

/-! ### The constructor -/

/-- The complete backend-call log of a successful construction with a
backend reporting `n` joints on every load: connect, search path, gravity,
timestep, plane, the construction-time robot load, then the initial reset
(remove the robot, reload, settle 1000 ticks). -/
def initLog (use_gui : Bool) (cfg : Config) (n : Nat) : List Event :=
  .connect use_gui :: .setAdditionalSearchPath ::
  .setGravity cfg.gravity.1 cfg.gravity.2.1 cfg.gravity.2.2 ::
  .setPhysicsEngineParameter cfg.dt 1 :: .loadPlane 0 ::
  (loadTrace cfg 1 n ++
   .removeBody 1 ::
   (loadTrace cfg 2 n ++ settleTrace 2 n (List.replicate n 0) 1000))

/-- Full description of construction with a fully populated config and a
backend reporting `n` joints on every load: it succeeds, the action space
is the symmetric torque box of dimension `n`, the live robot is the one
reloaded by the initial reset, and the client went through `initLog`. -/
theorem init_const_spec (use_gui realtime : Bool) (cfg : Config)
    (of : ObservationFactory) (rf : RewardFactory) (tf : TerminationFactory)
    (n : Nat) :
    Solo8VanillaEnv.init use_gui realtime (some cfg) of rf tf [] n =
      .ok ({ realtime := realtime, config := cfg, plane := 0, robot := 2,
             zero_gains := List.replicate n 0,
             action_space := ⟨-cfg.motor_torque_limit, cfg.motor_torque_limit, n⟩,
             obs_factory := of, reward_factory := rf,
             termination_factory := tf },
           { nextBodyId := 3, bodies := [(2, n), (0, 0)], stepCount := 1000,
             futureCounts := [], defaultCount := n,
             log := initLog use_gui cfg n }) := by
  have hload := load_robot_spec cfg
    { nextBodyId := 1, bodies := [(0, 0)], stepCount := 0, futureCounts := [],
      defaultCount := n,
      log := [.connect use_gui, .setAdditionalSearchPath,
        .setGravity cfg.gravity.1 cfg.gravity.2.1 cfg.gravity.2.2,
        .setPhysicsEngineParameter cfg.dt 1, .loadPlane 0] }
  simp only [List.headD, List.tail] at hload
  have hreset := reset_spec
    { realtime := realtime, config := cfg, plane := 0, robot := 1,
      zero_gains := List.replicate n 0,
      action_space := ⟨-cfg.motor_torque_limit, cfg.motor_torque_limit, n⟩,
      obs_factory := of, reward_factory := rf, termination_factory := tf }
    true
    { nextBodyId := 1 + 1, bodies := [(1, n), (0, 0)], stepCount := 0,
      futureCounts := [], defaultCount := n,
      log := [.connect use_gui, .setAdditionalSearchPath,
        .setGravity cfg.gravity.1 cfg.gravity.2.1 cfg.gravity.2.2,
        .setPhysicsEngineParameter cfg.dt 1, .loadPlane 0] ++ loadTrace cfg 1 n }
    n (by simp [jointCount]) (by simp) (by simp [resetFreshCount])
  unfold Solo8VanillaEnv.init
  simp only [ClientState.setGravity, ClientState.setPhysicsEngineParameter,
    ClientState.record, ClientState.loadPlane, List.append_assoc,
    List.cons_append, List.nil_append]
  simp only [hload]
  rw [hreset]
  simp [resetFinalState, resetFreshCount, initLog, removeEntry, jointCount,
    List.append_assoc]

/-! ### Further helper lemmas -/

/-- Whatever the backend does, a `reset` that returns normally changes no
environment field except `robot`: in particular `action_space`,
`zero_gains`, `config` and the three factories survive unchanged. -/
theorem reset_ok_env_fields (env : Solo8VanillaEnv) (ic : Bool)
    (s : ClientState) (r : ResetResult) (env1 : Solo8VanillaEnv)
    (s' : ClientState)
    (h : Solo8VanillaEnv.reset env ic s = .ok (r, env1, s')) :
    env1 = { env with robot := env1.robot } := by
  unfold Solo8VanillaEnv.reset at h
  split at h
  · cases h
  · split at h
    · cases h
    · dsimp only at h
      split at h
      · cases h
      · split at h <;>
          · simp only [Except.ok.injEq, Prod.mk.injEq] at h
            obtain ⟨-, henv, -⟩ := h
            subst henv
            rfl

/-- A step whose action length differs from the action-space dimension is
rejected by the backend's argument-length check: the error propagates and
the client state at the raise point is exactly the pre-call state (no
torque command recorded, no simulation advance). -/
theorem step_wrong_len_err (env : Solo8VanillaEnv) (action : List Rat)
    (s : ClientState) (cnt : Nat)
    (hbody : jointCount s.bodies env.robot = some cnt)
    (hlen : action.length ≠ env.action_space.dim) :
    Solo8VanillaEnv.step env action s = .error (.argumentLengthMismatch, s) := by
  unfold Solo8VanillaEnv.step ClientState.setJointMotorControlArray
  rw [hbody]
  simp only [List.length_range]
  rw [if_neg hlen]

/-- Recognizer for simulation-advance events. -/
def isStepSim : Event → Bool
  | .stepSim => true
  | _ => false

/-- Recognizer for torque-control motor commands. -/
def isTorqueCmd : Event → Bool
  | .motorCmd _ _ .torqueControl _ _ _ => true
  | _ => false

/-- Each settle iteration contributes exactly one simulation advance. -/
theorem settleTrace_stepSim_count (robot d : Nat) (zg : List Rat) (n : Nat) :
    (settleTrace robot d zg n).countP isStepSim = n := by
  induction n with
  | zero => simp [settleTrace]
  | succ n ih => simp [settleTrace, List.countP_cons, ih, isStepSim]

/-- The robot loader advances the simulation zero times. -/
theorem loadTrace_stepSim_count (cfg : Config) (id c : Nat) :
    (loadTrace cfg id c).countP isStepSim = 0 := by
  rw [List.countP_eq_zero]
  intro e he
  simp only [loadTrace, List.mem_cons, List.mem_map, List.mem_range] at he
  rcases he with rfl | rfl | ⟨j, hj, rfl⟩ <;> simp [isStepSim]

/-- The robot loader issues no torque-control command. -/
theorem loadTrace_no_torque (cfg : Config) (id c : Nat) :
    (loadTrace cfg id c).countP isTorqueCmd = 0 := by
  rw [List.countP_eq_zero]
  intro e he
  simp only [loadTrace, List.mem_cons, List.mem_map, List.mem_range] at he
  rcases he with rfl | rfl | ⟨j, hj, rfl⟩ <;> simp [isTorqueCmd]

/-! ### Concrete fixtures for the witnesses -/

/-- A concrete fully populated configuration. -/
def cfgW : Config :=
  { gravity := (0, 0, -981/100), dt := 1/100,
    urdf := "assets/solo8v2/solo.urdf",
    robot_start_pos := (0, 0, 7/20), robot_start_orientation_euler := (0, 0, 0),
    motor_torque_limit := 2, linear_damping := 0, angular_damping := 0,
    restitution := 0, lateral_friction := 1 }

/-- A concrete observation factory: one-element observation, one label,
declared dimension 1. -/
def obsW : ObservationFactory :=
  { get_obs := fun _ => ([0], ["base x"]),
    get_observation_space := fun _ => { dim := 1 } }

/-- A concrete reward factory. -/
def rewW : RewardFactory := { get_reward := fun _ => 0 }

/-- A concrete termination factory. -/
def termW : TerminationFactory := { is_terminated := fun _ => false }

/-- A post-construction client state: ground plane (body 0) and an 8-joint
robot (body 1) loaded, deterministic 8-joint backend. -/
def sW : ClientState :=
  { nextBodyId := 2, bodies := [(1, 8), (0, 0)], stepCount := 0,
    futureCounts := [], defaultCount := 8, log := [] }

/-- A post-construction environment over `sW` with torque limit 2 and 8
actuators. -/
def envW : Solo8VanillaEnv :=
  { realtime := false, config := cfgW, plane := 0, robot := 1,
    zero_gains := List.replicate 8 0, action_space := ⟨-2, 2, 8⟩,
    obs_factory := obsW, reward_factory := rewW,
    termination_factory := termW }

/-- `sW` with a backend whose next robot load reports 9 joints instead of
8: the joint-count-mismatch scenario. -/
def sMis : ClientState := { sW with futureCounts := [9] }

/-! ### Claim theorems -/

/-- Claim C1: a `step` whose action length differs from the actuator count
is signaled as an error to the caller: the backend's argument-length check
rejects it, the error propagates out of `step`, and the client state at
the raise point is exactly the pre-call state — no torque was commanded,
the simulation did not advance, and no truncated or padded action was
accepted (no `ok` result exists). -/
theorem step_wrong_action_length_signals_error (env : Solo8VanillaEnv)
    (action : List Rat) (s : ClientState) (cnt : Nat)
    (hbody : jointCount s.bodies env.robot = some cnt)
    (hlen : action.length ≠ env.action_space.dim) :
    Solo8VanillaEnv.step env action s = .error (.argumentLengthMismatch, s) ∧
    ∀ res s', Solo8VanillaEnv.step env action s ≠ .ok (res, s') := by
  have h := step_wrong_len_err env action s cnt hbody hlen
  refine ⟨h, fun res s' hcontra => ?_⟩
  rw [h] at hcontra
  cases hcontra

/-- Witness for C1: a 3-element action against the 8-actuator environment
is rejected with the client state untouched. -/
theorem step_wrong_action_length_signals_error_witness :
    (jointCount sW.bodies envW.robot = some 8) ∧
    (([1, 2, 3] : List Rat).length ≠ envW.action_space.dim) ∧
    Solo8VanillaEnv.step envW [1, 2, 3] sW = .error (.argumentLengthMismatch, sW) := by
  exact ⟨by decide, by decide,
    (step_wrong_action_length_signals_error envW [1, 2, 3] sW 8 (by decide)
      (by decide)).1⟩

/-- Claim C2 counterexample: with the backend reporting 9 joints for the
fresh load against a construction-time actuator count of 8, `reset`
completes normally and returns `ok` — the joint-count mismatch is not
signaled as a contract violation, refuting the claim's signaling part. -/
theorem reset_mismatch_unsignaled_cex :
    resetFreshCount sMis ≠ envW.action_space.dim ∧
    ∃ r env1 s', Solo8VanillaEnv.reset envW false sMis = .ok (r, env1, s') := by
  refine ⟨by decide, ?_⟩
  exact ⟨_, _, _, reset_spec envW false sMis 8 (by decide) (by decide) (by decide)⟩

/-- Claim C2 (amended): the actuator count and action space are set at
construction and `reset` never modifies them; but `reset` discards the
fresh load's joint count without comparing it to the construction-time
count, so whenever the fresh load reports at least as many joints as the
action space — equal or strictly more — `reset` completes without any
signal and the original action space survives, even on a mismatch. -/
theorem reset_actionspace_fixed_mismatch_unchecked (env : Solo8VanillaEnv)
    (ic : Bool) (s : ClientState) (cnt0 : Nat)
    (h1 : jointCount s.bodies env.robot = some cnt0)
    (hzg : env.zero_gains.length = env.action_space.dim)
    (hd : env.action_space.dim ≤ resetFreshCount s) :
    ∃ r env1 s', Solo8VanillaEnv.reset env ic s = .ok (r, env1, s') ∧
      env1.action_space = env.action_space ∧
      env1.zero_gains = env.zero_gains ∧
      jointCount s'.bodies env1.robot = some (resetFreshCount s) := by
  refine ⟨_, _, _, reset_spec env ic s cnt0 h1 hzg hd, rfl, rfl, ?_⟩
  simp [resetFinalState, jointCount]

/-- Witness for C2's amended theorem at the concrete mismatch scenario
(construction count 8, fresh load 9). -/
theorem reset_actionspace_fixed_mismatch_unchecked_witness :
    (jointCount sMis.bodies envW.robot = some 8) ∧
    (envW.zero_gains.length = envW.action_space.dim) ∧
    (envW.action_space.dim ≤ resetFreshCount sMis) ∧
    ∃ r env1 s', Solo8VanillaEnv.reset envW true sMis = .ok (r, env1, s') ∧
      env1.action_space = envW.action_space ∧
      env1.zero_gains = envW.zero_gains ∧
      jointCount s'.bodies env1.robot = some (resetFreshCount sMis) := by
  exact ⟨by decide, by decide, by decide,
    reset_actionspace_fixed_mismatch_unchecked envW true sMis 8 (by decide)
      (by decide) (by decide)⟩

/-- Claim C3: `reset` removes the robot body, reloads a fresh one at the
configured start pose (the `loadTrace` prefix of the appended log), then —
unconditionally, for arbitrary factories and client state — performs
exactly 1000 settle iterations, each a zero-torque zero-gain command plus
one simulation advance, and only afterwards computes the returned
observation from the post-settle state. -/
theorem reset_reloads_then_settles_1000 (env : Solo8VanillaEnv) (ic : Bool)
    (s : ClientState) (cnt0 : Nat)
    (h1 : jointCount s.bodies env.robot = some cnt0)
    (hzg : env.zero_gains = List.replicate env.action_space.dim 0)
    (hd : env.action_space.dim ≤ resetFreshCount s) :
    ∃ r env1 s', Solo8VanillaEnv.reset env ic s = .ok (r, env1, s') ∧
      s'.log = s.log ++ Event.removeBody env.robot ::
        (loadTrace env.config s.nextBodyId (resetFreshCount s) ++
         settleTrace s.nextBodyId env.action_space.dim
           (List.replicate env.action_space.dim 0) 1000) ∧
      s'.stepCount = s.stepCount + 1000 ∧
      s'.log.countP isStepSim = s.log.countP isStepSim + 1000 ∧
      (ic = false → r = .obsResult (env.obs_factory.get_obs s').1) := by
  refine ⟨_, _, _,
    reset_spec env ic s cnt0 h1 (by simp [hzg]) hd, ?_, rfl, ?_, ?_⟩
  · simp [resetFinalState, hzg]
  · simp [resetFinalState, List.countP_append, List.countP_cons,
      loadTrace_stepSim_count, settleTrace_stepSim_count, isStepSim]
  · intro hic
    subst hic
    simp

/-- Witness for C3 at the concrete 8-actuator environment. -/
theorem reset_reloads_then_settles_1000_witness :
    (jointCount sW.bodies envW.robot = some 8) ∧
    (envW.zero_gains = List.replicate envW.action_space.dim 0) ∧
    (envW.action_space.dim ≤ resetFreshCount sW) ∧
    ∃ r env1 s', Solo8VanillaEnv.reset envW false sW = .ok (r, env1, s') ∧
      s'.stepCount = sW.stepCount + 1000 ∧
      s'.log.countP isStepSim = sW.log.countP isStepSim + 1000 := by
  refine ⟨by decide, by decide, by decide, ?_⟩
  obtain ⟨r, env1, s', hok, -, hsc, hcount, -⟩ :=
    reset_reloads_then_settles_1000 envW false sW 8 (by decide) (by decide)
      (by decide)
  exact ⟨r, env1, s', hok, hsc, hcount⟩

/-- Claim C4: `reset(init_call=True)` returns the empty observation vector
paired with the empty label list; `reset(init_call=False)` returns only a
freshly computed observation vector (evaluated on the post-settle state),
of the length the factory's declared space reports there; neither branch
computes a reward or a termination flag (the `ResetResult` type carries
none). -/
theorem reset_return_values (env : Solo8VanillaEnv) (s : ClientState)
    (cnt0 : Nat)
    (h1 : jointCount s.bodies env.robot = some cnt0)
    (hzg : env.zero_gains.length = env.action_space.dim)
    (hd : env.action_space.dim ≤ resetFreshCount s)
    (hfac : ∀ st, (env.obs_factory.get_obs st).1.length =
      (env.obs_factory.get_observation_space st).dim) :
    ∃ env1 s',
      Solo8VanillaEnv.reset env true s = .ok (.initResult [] [], env1, s') ∧
      Solo8VanillaEnv.reset env false s =
        .ok (.obsResult (env.obs_factory.get_obs s').1, env1, s') ∧
      (env.obs_factory.get_obs s').1.length =
        (env.obs_factory.get_observation_space s').dim := by
  refine ⟨{ env with robot := s.nextBodyId }, resetFinalState env s, ?_, ?_,
    hfac _⟩
  · simpa using reset_spec env true s cnt0 h1 hzg hd
  · simpa using reset_spec env false s cnt0 h1 hzg hd

/-- Witness for C4 at the concrete environment with the dimension-1
observation factory. -/
theorem reset_return_values_witness :
    (jointCount sW.bodies envW.robot = some 8) ∧
    (envW.zero_gains.length = envW.action_space.dim) ∧
    (envW.action_space.dim ≤ resetFreshCount sW) ∧
    (∀ st, (envW.obs_factory.get_obs st).1.length =
      (envW.obs_factory.get_observation_space st).dim) ∧
    ∃ env1 s',
      Solo8VanillaEnv.reset envW true sW = .ok (.initResult [] [], env1, s') ∧
      Solo8VanillaEnv.reset envW false sW =
        .ok (.obsResult (envW.obs_factory.get_obs s').1, env1, s') := by
  refine ⟨by decide, by decide, by decide, fun st => rfl, ?_⟩
  obtain ⟨env1, s', h1, h2, -⟩ :=
    reset_return_values envW sW 8 (by decide) (by decide) (by decide)
      (fun st => rfl)
  exact ⟨env1, s', h1, h2⟩

/-- Claim C5: within one `step`, the torque command and exactly one
simulation advance happen strictly before any factory reads state — all
three factories are evaluated on the post-step state `s3`, whose log
already holds the torque command and the single new `stepSim` event — and
the returned 4-tuple is the observation vector, the scalar reward, the
termination flag, and an info mapping containing the key `labels` with the
observation labels. -/
theorem step_factories_observe_post_step_state (env : Solo8VanillaEnv)
    (action : List Rat) (s : ClientState) (cnt : Nat)
    (hbody : jointCount s.bodies env.robot = some cnt)
    (hd : env.action_space.dim ≤ cnt)
    (hlen : action.length = env.action_space.dim)
    (hzg : env.zero_gains.length = env.action_space.dim) :
    ∃ s3, Solo8VanillaEnv.step env action s =
        .ok ({ obs_values := (env.obs_factory.get_obs s3).1,
               reward := env.reward_factory.get_reward s3,
               done := env.termination_factory.is_terminated s3,
               info := [("labels", (env.obs_factory.get_obs s3).2)] }, s3) ∧
      s3.stepCount = s.stepCount + 1 ∧
      s3.log = s.log ++
        Event.motorCmd env.robot (List.range env.action_space.dim)
          .torqueControl action (some env.zero_gains) (some env.zero_gains) ::
        Event.stepSim ::
        (if env.realtime then [Event.sleep env.config.dt] else []) ∧
      s3.log.countP isStepSim = s.log.countP isStepSim + 1 := by
  refine ⟨stepFinalState env action s,
    step_spec env action s cnt hbody hd hlen hzg, rfl, rfl, ?_⟩
  cases hr : env.realtime <;>
    simp [stepFinalState, List.countP_append, List.countP_cons, isStepSim, hr]

/-- Witness for C5: a full-length action on the concrete environment. -/
theorem step_factories_observe_post_step_state_witness :
    (jointCount sW.bodies envW.robot = some 8) ∧
    (envW.action_space.dim ≤ 8) ∧
    ((List.replicate 8 (1 : Rat)).length = envW.action_space.dim) ∧
    (envW.zero_gains.length = envW.action_space.dim) ∧
    ∃ s3, Solo8VanillaEnv.step envW (List.replicate 8 1) sW =
        .ok ({ obs_values := (envW.obs_factory.get_obs s3).1,
               reward := envW.reward_factory.get_reward s3,
               done := envW.termination_factory.is_terminated s3,
               info := [("labels", (envW.obs_factory.get_obs s3).2)] }, s3) ∧
      s3.stepCount = sW.stepCount + 1 := by
  refine ⟨by decide, by decide, by decide, by decide, ?_⟩
  obtain ⟨s3, hok, hsc, -, -⟩ :=
    step_factories_observe_post_step_state envW (List.replicate 8 1) sW 8
      (by decide) (by decide) (by decide) (by decide)
  exact ⟨s3, hok, hsc⟩

/-- Claim C6: after construction the action space is the symmetric box
with per-coordinate bounds plus/minus the configured torque limit and
dimension equal to the actuator count the robot loader reports at
construction time (here a backend reporting `n` joints on every load),
and no later `reset` ever changes it (`step` never modifies the
environment object at all). -/
theorem action_space_symmetric_box_fixed (use_gui realtime : Bool)
    (cfg : Config) (of : ObservationFactory) (rf : RewardFactory)
    (tf : TerminationFactory) (n : Nat) :
    ∃ env s, Solo8VanillaEnv.init use_gui realtime (some cfg) of rf tf [] n =
        .ok (env, s) ∧
      env.action_space.dim = n ∧
      (∀ i, env.action_space.lowerBound i = -cfg.motor_torque_limit ∧
            env.action_space.upperBound i = cfg.motor_torque_limit) ∧
      (∀ ic s1 r env1 s1', Solo8VanillaEnv.reset env ic s1 = .ok (r, env1, s1') →
        env1.action_space = env.action_space) := by
  refine ⟨_, _, init_const_spec use_gui realtime cfg of rf tf n, rfl,
    fun i => ⟨rfl, rfl⟩, ?_⟩
  intro ic s1 r env1 s1' h
  rw [reset_ok_env_fields _ ic s1 r env1 s1' h]

/-- Witness for C6 at the concrete config (torque limit 2) and an 8-joint
backend. -/
theorem action_space_symmetric_box_fixed_witness :
    ∃ env s, Solo8VanillaEnv.init false false (some cfgW) obsW rewW termW [] 8 =
        .ok (env, s) ∧
      env.action_space.dim = 8 ∧
      env.action_space.lowerBound 0 = -2 ∧
      env.action_space.upperBound 0 = 2 := by
  obtain ⟨env, s, hok, hdim, hbounds, -⟩ :=
    action_space_symmetric_box_fixed false false cfgW obsW rewW termW 8
  refine ⟨env, s, hok, hdim, ?_, ?_⟩
  · rw [(hbounds 0).1]; decide
  · rw [(hbounds 0).2]; decide

/-- Claim C7: on every load, `_load_robot` loads the URDF at the
configured pose, then initializes all joints of the freshly loaded
instance (which has exactly the returned joint count) to zero-force
velocity control in a single command, and then applies the configured
linear damping, angular damping, restitution and lateral friction to each
joint in turn; the loader's call sequence contains no torque-control
command and no simulation advance, so the velocity-control initialization
precedes any torque control ever applied to this instance. -/
theorem load_robot_velocity_then_dynamics (cfg : Config) (s : ClientState) :
    ∃ id c s', Solo8VanillaEnv.load_robot cfg s = .ok (id, c, s') ∧
      jointCount s'.bodies id = some c ∧
      s'.log = s.log ++
        Event.loadRobot id cfg.urdf cfg.robot_start_pos
          cfg.robot_start_orientation_euler ::
        Event.motorCmd id (List.range c) .velocityControl
          (List.replicate c 0) none none ::
        (List.range c).map (fun j => Event.changeDynamics id j
          cfg.linear_damping cfg.angular_damping cfg.restitution
          cfg.lateral_friction) ∧
      (loadTrace cfg id c).countP isTorqueCmd = 0 ∧
      (loadTrace cfg id c).countP isStepSim = 0 := by
  refine ⟨s.nextBodyId, s.futureCounts.headD s.defaultCount, _,
    load_robot_spec cfg s, ?_, ?_, loadTrace_no_torque cfg s.nextBodyId _,
    loadTrace_stepSim_count cfg s.nextBodyId _⟩
  · simp [jointCount_cons_self]
  · simp [loadTrace]

/-- Witness for C7 at the concrete configuration and client state. -/
theorem load_robot_velocity_then_dynamics_witness :
    ∃ id c s', Solo8VanillaEnv.load_robot cfgW sW = .ok (id, c, s') ∧
      jointCount s'.bodies id = some c ∧
      (loadTrace cfgW id c).countP isTorqueCmd = 0 := by
  obtain ⟨id, c, s', hok, hjc, -, hnt, -⟩ :=
    load_robot_velocity_then_dynamics cfgW sW
  exact ⟨id, c, s', hok, hjc, hnt⟩

/-- Claim C8: for any action of the correct length, `step` forwards the
torque values to the backend exactly as given — the recorded command's
forces list is the action itself, element for element — and it succeeds
with no hypothesis whatsoever on the values, so torques outside the
declared box bounds are neither clipped nor rejected. -/
theorem step_torques_pass_through_unclipped (env : Solo8VanillaEnv)
    (action : List Rat) (s : ClientState) (cnt : Nat)
    (hbody : jointCount s.bodies env.robot = some cnt)
    (hd : env.action_space.dim ≤ cnt)
    (hlen : action.length = env.action_space.dim)
    (hzg : env.zero_gains.length = env.action_space.dim) :
    ∃ res s3, Solo8VanillaEnv.step env action s = .ok (res, s3) ∧
      s3.log = s.log ++
        Event.motorCmd env.robot (List.range env.action_space.dim)
          .torqueControl action (some env.zero_gains) (some env.zero_gains) ::
        Event.stepSim ::
        (if env.realtime then [Event.sleep env.config.dt] else []) := by
  exact ⟨_, _, step_spec env action s cnt hbody hd hlen hzg, rfl⟩

/-- Witness for C8: an action with torques far beyond the box bound 2 is
forwarded verbatim and accepted. -/
theorem step_torques_pass_through_unclipped_witness :
    (envW.action_space.high < 100) ∧
    (([100, -100, 0, 0, 0, 0, 0, 0] : List Rat).length = envW.action_space.dim) ∧
    ∃ res s3,
      Solo8VanillaEnv.step envW [100, -100, 0, 0, 0, 0, 0, 0] sW = .ok (res, s3) ∧
      s3.log = sW.log ++
        Event.motorCmd envW.robot (List.range envW.action_space.dim)
          .torqueControl [100, -100, 0, 0, 0, 0, 0, 0]
          (some envW.zero_gains) (some envW.zero_gains) ::
        Event.stepSim ::
        (if envW.realtime then [Event.sleep envW.config.dt] else []) := by
  exact ⟨by decide, by decide,
    step_torques_pass_through_unclipped envW [100, -100, 0, 0, 0, 0, 0, 0] sW 8
      (by decide) (by decide) (by decide) (by decide)⟩

/-- Claim C9: the constructor's config parameter defaults to `None` and is
dereferenced unconditionally, so construction without a config fails with
the `NoneType` attribute error after connecting but before any gravity or
timestep setup is performed (the raise-point log holds only the connect
and search-path calls, and the simulation never advanced); with any fully
populated config (over a fixed-asset backend reporting `n` joints per
load) construction passes that point and in fact returns normally. -/
theorem init_requires_config (use_gui realtime : Bool)
    (of : ObservationFactory) (rf : RewardFactory) (tf : TerminationFactory)
    (bc : List Nat) (bd : Nat) :
    (∃ s, Solo8VanillaEnv.init use_gui realtime none of rf tf bc bd =
        .error (.noneTypeHasNoAttribute, s) ∧
      s.log = [.connect use_gui, .setAdditionalSearchPath] ∧
      (∀ x y z, Event.setGravity x y z ∉ s.log) ∧
      (∀ dt k, Event.setPhysicsEngineParameter dt k ∉ s.log) ∧
      s.stepCount = 0) ∧
    (∀ cfg n, ∃ env s,
      Solo8VanillaEnv.init use_gui realtime (some cfg) of rf tf [] n =
        .ok (env, s)) := by
  constructor
  · refine ⟨_, rfl, rfl, ?_, ?_, rfl⟩
    · intro x y z hmem
      simp at hmem
    · intro dt k hmem
      simp at hmem
  · intro cfg n
    exact ⟨_, _, init_const_spec use_gui realtime cfg of rf tf n⟩

/-- Witness for C9 at concrete arguments: construction with `none` fails
with the attribute error, construction with the concrete config returns
normally. -/
theorem init_requires_config_witness :
    (∃ s, Solo8VanillaEnv.init false false none obsW rewW termW [] 8 =
        .error (.noneTypeHasNoAttribute, s) ∧ s.stepCount = 0) ∧
    (∃ env s, Solo8VanillaEnv.init false false (some cfgW) obsW rewW termW [] 8 =
        .ok (env, s)) := by
  obtain ⟨⟨s, herr, -, -, -, hsc⟩, hsome⟩ :=
    init_requires_config false false obsW rewW termW [] 8
  exact ⟨⟨s, herr, hsc⟩, hsome cfgW 8⟩

/-- Claim C10: the `observation_space` property delegates directly to the
observation factory's `get_observation_space` with no caching by the
environment — accesses agree exactly when the factory's returns agree, and
even after a `reset` the property is still the same direct delegation to
the same factory (the environment holds no refreshed copy). -/
theorem observation_space_delegates_uncached (env : Solo8VanillaEnv)
    (s1 s2 : ClientState) :
    Solo8VanillaEnv.observation_space env s1 =
      env.obs_factory.get_observation_space s1 ∧
    (Solo8VanillaEnv.observation_space env s1 =
        Solo8VanillaEnv.observation_space env s2 ↔
      env.obs_factory.get_observation_space s1 =
        env.obs_factory.get_observation_space s2) ∧
    (∀ ic s r env1 s', Solo8VanillaEnv.reset env ic s = .ok (r, env1, s') →
      ∀ t, Solo8VanillaEnv.observation_space env1 t =
        env.obs_factory.get_observation_space t) := by
  refine ⟨rfl, Iff.rfl, ?_⟩
  intro ic s r env1 s' h t
  rw [reset_ok_env_fields env ic s r env1 s' h]
  rfl

/-- Witness for C10 at the concrete environment and a reset result. -/
theorem observation_space_delegates_uncached_witness :
    (Solo8VanillaEnv.observation_space envW sW =
      obsW.get_observation_space sW) ∧
    ∃ r env1 s', Solo8VanillaEnv.reset envW false sW = .ok (r, env1, s') ∧
      Solo8VanillaEnv.observation_space env1 sW =
        obsW.get_observation_space sW := by
  obtain ⟨hdeleg, -, hreset⟩ :=
    observation_space_delegates_uncached envW sW sW
  have hok := reset_spec envW false sW 8 (by decide) (by decide) (by decide)
  exact ⟨hdeleg, _, _, _, hok, hreset false sW _ _ _ hok sW⟩
